import Mathlib

/-!
Shallow embedding of the EventEase backend (FastAPI + SQLAlchemy) registration,
ticketing and notification workflow, translated from `app/crud.py`,
`app/routers/events.py`, `app/routers/interactions.py`, `app/models.py` and
`app/exceptions.py`.

The relational store is modelled as lists of rows plus autoincrement counters.
Each CRUD function commits at most once and raises before any mutation, so it
is modelled as `DB → args → Except AppError α × DB` where the returned `DB` is
the committed state (unchanged on error for single-commit functions).  Router
handlers that commit several times (`register_event`, the notification
fan-out) also use this state-passing shape: on a mid-handler exception the
previously committed rows stay in the returned store, exactly as the Python
session behaves (there is no surrounding transaction or rollback in the code).

Wall-clock columns (`created_at`) and password hashing are irrelevant to the
claims and omitted; `Event.date` is kept as an integer timestamp since the
search endpoint filters on it.  The QR renderer and filesystem are external
collaborators: the outcome of the artifact write is an oracle boolean
parameter `artifact_write_ok`, and the random ticket UUID is a string
parameter.
-/

namespace EventEase

/-- Row of the `users` table (`app/models.py`, class `User`). -/
structure User where
  id : Nat
  name : String
  email : String
  password_hash : String
  role : String
deriving Repr, DecidableEq

/-- Row of the `events` table (`app/models.py`, class `Event`).
`description` is nullable; `date` is a DateTime modelled as an integer
timestamp (seconds). -/
structure Event where
  id : Nat
  title : String
  description : Option String
  date : Int
  organizer_id : Nat
deriving Repr, DecidableEq

/-- Row of the `registrations` table (`app/models.py`, class `Registration`). -/
structure Registration where
  id : Nat
  user_id : Nat
  event_id : Nat
deriving Repr, DecidableEq

/-- Row of the `tickets` table (`app/models.py`, class `Ticket`). -/
structure Ticket where
  id : Nat
  code : String
  registration_id : Nat
deriving Repr, DecidableEq

/-- Row of the `notifications` table (`app/models.py`, class `Notification`).
`event_id` is nullable; `created_at` omitted (wall clock). -/
structure Notification where
  id : Nat
  title : String
  message : String
  is_read : Bool
  user_id : Nat
  event_id : Option Nat
deriving Repr, DecidableEq

/-- The relational store: one list per table, plus autoincrement primary-key
counters for the tables the embedded operations insert into. -/
structure DB where
  users : List User
  events : List Event
  registrations : List Registration
  tickets : List Ticket
  notifications : List Notification
  next_registration_id : Nat
  next_ticket_id : Nat
  next_notification_id : Nat
deriving Repr, DecidableEq

/-- The exception taxonomy of `app/exceptions.py` plus the two boundary error
shapes that reach the handlers in the embedded endpoints: an uncaught
artifact-write exception (handled by `general_exception_handler`, 500) and a
`fastapi.HTTPException` raised in a router. -/
inductive AppError where
  | userAlreadyExists (email : String)
  | userNotFound (identifier : String)
  | eventNotFound (identifier : String)
  | unauthorized (message : String)
  | alreadyRegistered (event_id : Nat)
  | artifactWriteError
  | httpError (status : Nat) (detail : String)
deriving Repr, DecidableEq

/-- HTTP status each error is mapped to by the exception handlers in
`app/exceptions.py` (custom exceptions carry their status; an uncaught
exception yields 500). -/
def statusCode : AppError → Nat
  | .userAlreadyExists _ => 409
  | .userNotFound _ => 404
  | .eventNotFound _ => 404
  | .unauthorized _ => 403
  | .alreadyRegistered _ => 409
  | .artifactWriteError => 500
  | .httpError s _ => s

/-- `crud.get_user_by_id`: first user row with the given id, else
`UserNotFoundError(f"ID {user_id}")` (404). Read-only. -/
def get_user_by_id (db : DB) (user_id : Nat) : Except AppError User :=
  match db.users.find? (fun u => u.id == user_id) with
  | some u => .ok u
  | none => .error (.userNotFound ("ID " ++ toString user_id))

/-- `crud.get_event_by_id`: first event row with the given id, else
`EventNotFoundError(event_id)` (404). Read-only. -/
def get_event_by_id (db : DB) (event_id : Nat) : Except AppError Event :=
  match db.events.find? (fun v => v.id == event_id) with
  | some v => .ok v
  | none => .error (.eventNotFound (toString event_id))

/-- The `if event_id:` guard of `crud.create_notification`: the event
existence check runs only when `event_id` is truthy (not None and not 0). -/
def checkEventTruthy (db : DB) (event_id : Option Nat) : Except AppError Unit :=
  match event_id with
  | none => .ok ()
  | some eid =>
    if eid == 0 then .ok ()
    else
      match get_event_by_id db eid with
      | .error e => .error e
      | .ok _ => .ok ()

/-- `crud.create_notification`: verifies the recipient exists, verifies the
event exists when `event_id` is truthy, then inserts and commits one
notification row (with `is_read = False` by column default). -/
def create_notification (db : DB) (title message : String) (user_id : Nat)
    (event_id : Option Nat) : Except AppError Notification × DB :=
  match get_user_by_id db user_id with
  | .error e => (.error e, db)
  | .ok _ =>
    match checkEventTruthy db event_id with
    | .error e => (.error e, db)
    | .ok _ =>
      let n : Notification :=
        ⟨db.next_notification_id, title, message, false, user_id, event_id⟩
      (.ok n, { db with
                  notifications := db.notifications ++ [n],
                  next_notification_id := db.next_notification_id + 1 })

/-- `crud.register_for_event`: verifies user and event exist, checks for an
existing registration for the (user, event) pair, raises
`AlreadyRegisteredError(event_id)` (409) if one exists, otherwise inserts and
commits one registration row. -/
def register_for_event (db : DB) (user_id event_id : Nat) :
    Except AppError Registration × DB :=
  match get_user_by_id db user_id with
  | .error e => (.error e, db)
  | .ok _ =>
    match get_event_by_id db event_id with
    | .error e => (.error e, db)
    | .ok _ =>
      match db.registrations.find?
          (fun r => r.user_id == user_id && r.event_id == event_id) with
      | some _ => (.error (.alreadyRegistered event_id), db)
      | none =>
        let reg : Registration := ⟨db.next_registration_id, user_id, event_id⟩
        (.ok reg, { db with
                      registrations := db.registrations ++ [reg],
                      next_registration_id := db.next_registration_id + 1 })

/-- `crud.cancel_registration`: verifies the event exists, finds the first
registration row for the (user, event) pair, raises
`EventNotFoundError(f"Registration not found for event {event_id}")` (404) if
none, otherwise deletes that row (by primary key) and commits. -/
def cancel_registration (db : DB) (user_id event_id : Nat) :
    Except AppError Registration × DB :=
  match get_event_by_id db event_id with
  | .error e => (.error e, db)
  | .ok _ =>
    match db.registrations.find?
        (fun r => r.user_id == user_id && r.event_id == event_id) with
    | none =>
      (.error (.eventNotFound ("Registration not found for event " ++ toString event_id)), db)
    | some reg =>
      (.ok reg, { db with
                    registrations := db.registrations.eraseP (fun r => r.id == reg.id) })

/-- The loop body of `crud.notify_event_participants`: the `continue` guard
`if exclude_user_id and registration.user_id == exclude_user_id` — by Python
truthiness an `exclude_user_id` of `None` or `0` excludes nobody. -/
def isExcluded (exclude_user_id : Option Nat) (uid : Nat) : Bool :=
  match exclude_user_id with
  | none => false
  | some k => !(k == 0) && uid == k

/-- The `for registration in registrations` loop of
`crud.notify_event_participants`: each non-excluded registrant gets one
`create_notification` call (each of which commits); the first exception
propagates, aborting the rest of the loop. -/
def notify_loop (db : DB) (regs : List Registration) (event_id : Nat)
    (title message : String) (exclude_user_id : Option Nat)
    (acc : List Notification) : Except AppError (List Notification) × DB :=
  match regs with
  | [] => (.ok acc, db)
  | r :: rest =>
    if isExcluded exclude_user_id r.user_id then
      notify_loop db rest event_id title message exclude_user_id acc
    else
      match create_notification db title message r.user_id (some event_id) with
      | (.error e, db1) => (.error e, db1)
      | (.ok n, db1) =>
        notify_loop db1 rest event_id title message exclude_user_id (acc ++ [n])

/-- `crud.notify_event_participants`: reads all registrations of the event,
then runs the creation loop. -/
def notify_event_participants (db : DB) (event_id : Nat)
    (title message : String) (exclude_user_id : Option Nat) :
    Except AppError (List Notification) × DB :=
  notify_loop db (db.registrations.filter (fun r => r.event_id == event_id))
    event_id title message exclude_user_id []

/-- `crud.mark_notification_as_read`, inner step: the ORM query
`filter(id == notification_id, user_id == user_id).first()` followed by the
in-place `is_read = True` mutate-and-commit, on a list of rows. -/
def markFirst (ns : List Notification) (notification_id user_id : Nat) :
    Option Notification × List Notification :=
  match ns with
  | [] => (none, [])
  | n :: rest =>
    if n.id == notification_id && n.user_id == user_id then
      (some { n with is_read := true }, { n with is_read := true } :: rest)
    else
      let (r, rest') := markFirst rest notification_id user_id
      (r, n :: rest')

/-- `crud.mark_notification_as_read`: sets `is_read` on the caller's
notification and returns it, or returns `None` (no mutation) when no
notification with that id belongs to the caller. -/
def mark_notification_as_read (db : DB) (notification_id user_id : Nat) :
    Option Notification × DB :=
  let (r, ns) := markFirst db.notifications notification_id user_id
  (r, { db with notifications := ns })

/-- `crud.mark_all_notifications_as_read`: bulk-updates every unread
notification of the user to read and returns the literal `True`. -/
def mark_all_notifications_as_read (db : DB) (user_id : Nat) : Bool × DB :=
  (true, { db with
             notifications := db.notifications.map (fun n =>
               if n.user_id == user_id && n.is_read == false then
                 { n with is_read := true }
               else n) })

/-- `crud.get_unread_notification_count`: count of the user's rows with
`is_read == False`. Read-only. -/
def get_unread_notification_count (db : DB) (user_id : Nat) : Nat :=
  (db.notifications.filter (fun n => n.user_id == user_id && n.is_read == false)).length

/-- Router `PATCH /interactions/notifications/{id}/read`
(`interactions.mark_notification_as_read`): a `None` from the CRUD layer
becomes `HTTPException(404, "Notification not found")`. -/
def route_mark_notification_as_read (db : DB) (notification_id user_id : Nat) :
    Except AppError Notification × DB :=
  match mark_notification_as_read db notification_id user_id with
  | (none, db1) => (.error (.httpError 404 "Notification not found"), db1)
  | (some n, db1) => (.ok n, db1)

/-- Router `PATCH /interactions/notifications/read-all`
(`interactions.mark_all_notifications_as_read`): discards the CRUD return
value and answers a fixed message. -/
def route_mark_all_notifications_as_read (db : DB) (user_id : Nat) :
    String × DB :=
  let (_, db1) := mark_all_notifications_as_read db user_id
  ("All notifications marked as read", db1)

/-- The JSON body returned by `POST /events/{event_id}/register`. -/
structure RegisterResponse where
  message : String
  ticket_code : String
  ticket_url : String
deriving Repr, DecidableEq

/-- Router `POST /events/{event_id}/register` (`events.register_event`):
creates and commits the registration, re-reads the event, creates and commits
the ticket, writes the QR artifact (outcome given by the oracle
`artifact_write_ok`; a write failure raises an uncaught exception with no
rollback of the committed rows), then creates the two confirmation
notifications and answers. `ticket_uuid` stands for `str(uuid.uuid4())`. -/
def register_event (db : DB) (current_user_id : Nat) (current_user_name : String)
    (event_id : Nat) (ticket_uuid : String) (artifact_write_ok : Bool) :
    Except AppError RegisterResponse × DB :=
  match register_for_event db current_user_id event_id with
  | (.error e, db1) => (.error e, db1)
  | (.ok reg, db1) =>
    match get_event_by_id db1 event_id with
    | .error e => (.error e, db1)
    | .ok event =>
      let ticket : Ticket := ⟨db1.next_ticket_id, ticket_uuid, reg.id⟩
      let db2 := { db1 with
                     tickets := db1.tickets ++ [ticket],
                     next_ticket_id := db1.next_ticket_id + 1 }
      if artifact_write_ok then
        let filename := ticket.code ++ ".png"
        let ticket_url := "http://localhost:8000/tickets/" ++ filename
        match create_notification db2 "Registration Successful"
            ("You have successfully registered for " ++ event.title ++
              ". Your ticket code is " ++ ticket.code)
            current_user_id (some event_id) with
        | (.error e, db3) => (.error e, db3)
        | (.ok _, db3) =>
          match create_notification db3 "New Registration"
              (current_user_name ++ " has registered for your event " ++ event.title)
              event.organizer_id (some event_id) with
          | (.error e, db4) => (.error e, db4)
          | (.ok _, db4) =>
            (.ok ⟨"Successfully registered for " ++ event.title ++ "!",
                  ticket.code, ticket_url⟩, db4)
      else
        (.error .artifactWriteError, db2)

/-! ## Event search (`crud.search_events`) and its date parsing -/

/-- Digit test for the `strptime` field regexes. -/
def isDigitChar (c : Char) : Bool := decide ('0' ≤ c) && decide (c ≤ '9')

/-- Numeric value of a digit string. -/
def digitsToNat (cs : List Char) : Nat :=
  cs.foldl (fun a c => a * 10 + (c.toNat - '0'.toNat)) 0

/-- Gregorian leap-year rule used by `datetime.date`. -/
def isLeapYear (y : Nat) : Bool :=
  (y % 4 == 0 && !(y % 100 == 0)) || y % 400 == 0

/-- Days in a month of a given year, as validated by `datetime.date`. -/
def daysInMonth (y m : Nat) : Nat :=
  if m == 2 then (if isLeapYear y then 29 else 28)
  else if m == 4 || m == 6 || m == 9 || m == 11 then 30
  else 31

/-- Split a character list at dashes (semantics of `str.split('-')` on the
field separator of the `%Y-%m-%d` format). -/
def splitDash (cs : List Char) : List (List Char) :=
  match cs with
  | [] => [[]]
  | c :: rest =>
    let r := splitDash rest
    if c == '-' then [] :: r
    else
      match r with
      | [] => [[c]]
      | g :: gs => (c :: g) :: gs

/-- Model of `datetime.strptime(date, "%Y-%m-%d")`: exactly three dash-joined
digit fields (4-digit year; 1- or 2-digit month 1..12 and day, per the
`_strptime` field regexes), then `date(year, month, day)` validation of the
day against the month length. `none` models the `ValueError` path. -/
def parse_ymd (s : String) : Option (Nat × Nat × Nat) :=
  match splitDash s.data with
  | [yc, mc, dc] =>
    if yc.length == 4 && yc.all isDigitChar &&
        decide (1 ≤ mc.length) && decide (mc.length ≤ 2) && mc.all isDigitChar &&
        decide (1 ≤ dc.length) && decide (dc.length ≤ 2) && dc.all isDigitChar then
      let y := digitsToNat yc
      let m := digitsToNat mc
      let d := digitsToNat dc
      if decide (1 ≤ y) && decide (1 ≤ m) && decide (m ≤ 12) &&
          decide (1 ≤ d) && decide (d ≤ daysInMonth y m) then
        some (y, m, d)
      else none
    else none
  | _ => none

/-- Cumulative day count of the months before month `m` in year `y`. -/
def daysBeforeMonth (y m : Nat) : Nat :=
  (List.range (m - 1)).foldl (fun a i => a + daysInMonth y (i + 1)) 0

/-- Proleptic-Gregorian ordinal of a (year, month, day), in days. -/
def toOrdinal (y m d : Nat) : Nat :=
  let py := y - 1
  365 * py + py / 4 - py / 100 + py / 400 + daysBeforeMonth y m + (d - 1)

/-- Timestamp (seconds) of midnight starting the parsed day: the `start` of
`search_events`; `start + 86400` is its `end`. -/
def dayStart (ymd : Nat × Nat × Nat) : Int :=
  (toOrdinal ymd.1 ymd.2.1 ymd.2.2 : Int) * 86400

/-- The `Event.description.ilike(f"%{search}%")` filter: case-insensitive
substring match on the description; a NULL description never matches.
(Wildcard characters inside `search` are not modelled; no claim depends on
them.) Inner prefix test. -/
def charsPrefixOf (needle hay : List Char) : Bool :=
  match needle, hay with
  | [], _ => true
  | _ :: _, [] => false
  | a :: as, b :: bs => a == b && charsPrefixOf as bs

/-- Substring test over character lists for the `ilike` model. -/
def charsInfixOf (needle hay : List Char) : Bool :=
  match hay with
  | [] => charsPrefixOf needle []
  | _ :: bs => charsPrefixOf needle hay || charsInfixOf needle bs

/-- Case-insensitive `description ilike %search%` on one event row. -/
def descMatches (search : String) (ev : Event) : Bool :=
  match ev.description with
  | none => false
  | some d => charsInfixOf search.toLower.data d.toLower.data

/-- `crud.search_events`: optional description filter (skipped for a falsy
`search`), optional date filter — applied only when `date` is truthy AND
parses as `%Y-%m-%d`; a `ValueError` is swallowed (`pass`) leaving the query
unfiltered — then offset/limit. -/
def search_events (db : DB) (search : Option String) (date : Option String)
    (skip limit : Nat) : List Event :=
  let q := db.events
  let q := match search with
    | some s => if s.isEmpty then q else q.filter (descMatches s)
    | none => q
  let q := match date with
    | some d =>
      if d.isEmpty then q
      else
        match parse_ymd d with
        | some ymd =>
          q.filter (fun ev =>
            decide (dayStart ymd ≤ ev.date) && decide (ev.date < dayStart ymd + 86400))
        | none => q
    | none => q
  (q.drop skip).take limit

/-! ## Store invariants used by the claims -/

/-- At most one live Registration per (user, event) pair: no two distinct
rows of the ledger share the pair. -/
def RegUnique (db : DB) : Prop :=
  db.registrations.Pairwise
    (fun a b => ¬ (a.user_id = b.user_id ∧ a.event_id = b.event_id))

/-- Autoincrement discipline of the ledger: every stored registration id is
below the next-id counter (so a fresh insert never collides). -/
def RegIdsFresh (db : DB) : Prop :=
  ∀ r ∈ db.registrations, r.id < db.next_registration_id

/-! ## Concrete sample stores for witnesses and counterexamples -/

/-- A store with one user (id 1) organizing one event (id 10), no
registrations. -/
def dbBase : DB :=
  { users := [⟨1, "Alice", "alice at example", "h", "organizer"⟩],
    events := [⟨10, "LeanConf", some "a conference", 1000, 1⟩],
    registrations := [],
    tickets := [],
    notifications := [],
    next_registration_id := 1,
    next_ticket_id := 1,
    next_notification_id := 1 }

/-- A store where user 1 is already registered for event 10. -/
def dbRegistered : DB :=
  { dbBase with
      registrations := [⟨1, 1, 10⟩],
      next_registration_id := 2 }

/-- A store whose event 10 has a dangling registration for a missing user 5
followed by a registration for the existing user 6: the fan-out fails on the
first recipient. -/
def dbDangling : DB :=
  { users := [⟨6, "Frank", "f at example", "h", "attendee"⟩],
    events := [⟨10, "LeanConf", none, 1000, 6⟩],
    registrations := [⟨1, 5, 10⟩, ⟨2, 6, 10⟩],
    tickets := [],
    notifications := [],
    next_registration_id := 3,
    next_ticket_id := 1,
    next_notification_id := 1 }

/-- A store where users 0 and 1 are both registered for event 10: the
boundary registrant id 0 exercises the falsy `exclude_user_id` guard. -/
def dbZeroUser : DB :=
  { users := [⟨0, "Zed", "z at example", "h", "attendee"⟩,
              ⟨1, "Alice", "alice at example", "h", "organizer"⟩],
    events := [⟨10, "LeanConf", none, 1000, 1⟩],
    registrations := [⟨1, 0, 10⟩, ⟨2, 1, 10⟩],
    tickets := [],
    notifications := [],
    next_registration_id := 3,
    next_ticket_id := 1,
    next_notification_id := 1 }

/-- A store where user 1 has two unread notifications. -/
def dbUnread : DB :=
  { users := [⟨1, "Alice", "alice at example", "h", "attendee"⟩],
    events := [],
    registrations := [],
    tickets := [],
    notifications := [⟨1, "t1", "m1", false, 1, none⟩,
                      ⟨2, "t2", "m2", false, 1, none⟩],
    next_registration_id := 1,
    next_ticket_id := 1,
    next_notification_id := 3 }

/-! ## Helper lemmas -/

/-- `create_notification` never touches the users, events, registrations or
tickets tables, whatever its outcome. -/
theorem create_notification_tables (db : DB) (t m : String) (uid : Nat)
    (eo : Option Nat) :
    ((create_notification db t m uid eo).2).users = db.users ∧
    ((create_notification db t m uid eo).2).events = db.events ∧
    ((create_notification db t m uid eo).2).registrations = db.registrations ∧
    ((create_notification db t m uid eo).2).tickets = db.tickets := by
  unfold create_notification
  cases get_user_by_id db uid with
  | error e => simp
  | ok u =>
    cases checkEventTruthy db eo with
    | error e => simp
    | ok _ => simp

/-- The truthy event check only reads the events table. -/
theorem checkEventTruthy_congr (db1 db2 : DB) (eo : Option Nat)
    (h : db1.events = db2.events) :
    checkEventTruthy db1 eo = checkEventTruthy db2 eo := by
  unfold checkEventTruthy get_event_by_id
  rw [h]

/-- Success shape of `create_notification` when the recipient exists and the
event check passes. -/
theorem create_notification_ok (db : DB) (t m : String) (uid : Nat)
    (eo : Option Nat) (usr : User)
    (hu : db.users.find? (fun x => x.id == uid) = some usr)
    (he : checkEventTruthy db eo = .ok ()) :
    create_notification db t m uid eo =
      (.ok ⟨db.next_notification_id, t, m, false, uid, eo⟩,
       { db with
           notifications :=
             db.notifications ++ [⟨db.next_notification_id, t, m, false, uid, eo⟩],
           next_notification_id := db.next_notification_id + 1 }) := by
  unfold create_notification get_user_by_id
  simp [hu, he]

/-- Failure shape of `create_notification` when the recipient is absent: the
`UserNotFoundError` propagates and the store is unchanged. -/
theorem create_notification_err_user (db : DB) (t m : String) (uid : Nat)
    (eo : Option Nat)
    (hu : db.users.find? (fun x => x.id == uid) = none) :
    create_notification db t m uid eo =
      (.error (.userNotFound ("ID " ++ toString uid)), db) := by
  unfold create_notification get_user_by_id
  simp [hu]

/-- Bulk mark-all leaves no unread row of the user behind, on the raw list. -/
theorem markAll_filter_nil (u : Nat) (ns : List Notification) :
    ((ns.map (fun n =>
        if n.user_id == u && n.is_read == false then { n with is_read := true }
        else n)).filter
      (fun n => n.user_id == u && n.is_read == false)) = [] := by
  rw [List.filter_eq_nil_iff]
  intro a ha
  rw [List.mem_map] at ha
  obtain ⟨n, _, rfl⟩ := ha
  by_cases h : (n.user_id == u && n.is_read == false) = true
  · rw [if_pos h]
    simp
  · rw [if_neg h]
    simpa using h

/-- Unfolding equation: empty fan-out loop. -/
theorem notify_loop_nil (db : DB) (eid : Nat) (t m : String) (ex : Option Nat)
    (acc : List Notification) :
    notify_loop db [] eid t m ex acc = (.ok acc, db) := rfl

/-- Unfolding equation: fan-out loop step. -/
theorem notify_loop_cons (db : DB) (r : Registration) (rest : List Registration)
    (eid : Nat) (t m : String) (ex : Option Nat) (acc : List Notification) :
    notify_loop db (r :: rest) eid t m ex acc =
      (if isExcluded ex r.user_id then
        notify_loop db rest eid t m ex acc
      else
        match create_notification db t m r.user_id (some eid) with
        | (.error e, db1) => (.error e, db1)
        | (.ok n, db1) => notify_loop db1 rest eid t m ex (acc ++ [n])) := rfl

/-- When the event check passes and every non-excluded registrant's user row
exists, the fan-out loop succeeds, creating exactly one notification per
non-excluded registrant, and touches no other table. -/
theorem notify_loop_ok (eid : Nat) (t m : String) (ex : Option Nat) :
    ∀ (rs : List Registration) (db : DB) (acc : List Notification),
    checkEventTruthy db (some eid) = .ok () →
    (∀ r ∈ rs, isExcluded ex r.user_id = false →
      ∃ usr, db.users.find? (fun x => x.id == r.user_id) = some usr) →
    ∃ ns db1,
      notify_loop db rs eid t m ex acc = (.ok (acc ++ ns), db1) ∧
      ns.length = (rs.filter (fun r => !(isExcluded ex r.user_id))).length ∧
      db1.users = db.users ∧ db1.events = db.events ∧
      db1.registrations = db.registrations ∧
      db1.notifications.length = db.notifications.length + ns.length := by
  intro rs
  induction rs with
  | nil =>
    intro db acc _ _
    exact ⟨[], db, by simp [notify_loop_nil], by simp, rfl, rfl, rfl, by simp⟩
  | cons r rest ih =>
    intro db acc hev hall
    cases hex : isExcluded ex r.user_id with
    | true =>
      obtain ⟨ns, db1, h1, h2, h3, h4, h5, h6⟩ :=
        ih db acc hev (fun x hx => hall x (List.mem_cons_of_mem _ hx))
      refine ⟨ns, db1, ?_, ?_, h3, h4, h5, h6⟩
      · rw [notify_loop_cons, if_pos hex]
        exact h1
      · rw [List.filter_cons]
        simp only [hex, Bool.not_true, if_neg]
        simpa using h2
    | false =>
      obtain ⟨usr, husr⟩ := hall r (List.mem_cons_self r rest) hex
      obtain ⟨ns, db1, h1, h2, h3, h4, h5, h6⟩ :=
        ih { db with
               notifications :=
                 db.notifications ++ [⟨db.next_notification_id, t, m, false, r.user_id, some eid⟩],
               next_notification_id := db.next_notification_id + 1 }
          (acc ++ [⟨db.next_notification_id, t, m, false, r.user_id, some eid⟩])
          ((checkEventTruthy_congr _ db (some eid) rfl).trans hev)
          (fun x hx hx2 => hall x (List.mem_cons_of_mem _ hx) hx2)
      refine ⟨⟨db.next_notification_id, t, m, false, r.user_id, some eid⟩ :: ns, db1,
        ?_, ?_, h3, h4, h5, ?_⟩
      · rw [notify_loop_cons, if_neg (by simp [hex]),
          create_notification_ok db t m r.user_id (some eid) usr husr hev]
        exact h1.trans (by simp)
      · rw [List.filter_cons]
        simp only [hex, Bool.not_false, if_pos]
        simp [h2]
      · dsimp only at h6
        rw [h6, List.length_append]
        simp only [List.length_cons, List.length_nil]
        omega

/-- When some non-excluded registrant's user row is absent, the fan-out loop
aborts at the first such registrant: the `UserNotFoundError` is surfaced,
earlier non-excluded registrants keep their already-committed notifications,
and later registrants get none. -/
theorem notify_loop_err (eid : Nat) (t m : String) (ex : Option Nat)
    (rbad : Registration) (rs2 : List Registration)
    (hnex : isExcluded ex rbad.user_id = false) :
    ∀ (rs1 : List Registration) (db : DB) (acc : List Notification),
    checkEventTruthy db (some eid) = .ok () →
    (∀ r ∈ rs1, isExcluded ex r.user_id = false →
      ∃ usr, db.users.find? (fun x => x.id == r.user_id) = some usr) →
    db.users.find? (fun x => x.id == rbad.user_id) = none →
    ∃ db1,
      notify_loop db (rs1 ++ rbad :: rs2) eid t m ex acc =
        (.error (.userNotFound ("ID " ++ toString rbad.user_id)), db1) ∧
      db1.notifications.length =
        db.notifications.length +
          (rs1.filter (fun r => !(isExcluded ex r.user_id))).length ∧
      db1.users = db.users ∧ db1.events = db.events ∧
      db1.registrations = db.registrations := by
  intro rs1
  induction rs1 with
  | nil =>
    intro db acc hev _ habs
    refine ⟨db, ?_, by simp, rfl, rfl, rfl⟩
    rw [List.nil_append, notify_loop_cons, if_neg (by simp [hnex]),
      create_notification_err_user db t m rbad.user_id (some eid) habs]
  | cons r rest ih =>
    intro db acc hev hall habs
    cases hex : isExcluded ex r.user_id with
    | true =>
      obtain ⟨db1, h1, h2, h3, h4, h5⟩ :=
        ih db acc hev (fun x hx => hall x (List.mem_cons_of_mem _ hx)) habs
      refine ⟨db1, ?_, ?_, h3, h4, h5⟩
      · rw [List.cons_append, notify_loop_cons, if_pos hex]
        exact h1
      · rw [List.filter_cons]
        simp only [hex, Bool.not_true, if_neg]
        simpa using h2
    | false =>
      obtain ⟨usr, husr⟩ := hall r (List.mem_cons_self r rest) hex
      obtain ⟨db1, h1, h2, h3, h4, h5⟩ :=
        ih { db with
               notifications :=
                 db.notifications ++ [⟨db.next_notification_id, t, m, false, r.user_id, some eid⟩],
               next_notification_id := db.next_notification_id + 1 }
          (acc ++ [⟨db.next_notification_id, t, m, false, r.user_id, some eid⟩])
          ((checkEventTruthy_congr _ db (some eid) rfl).trans hev)
          (fun x hx hx2 => hall x (List.mem_cons_of_mem _ hx) hx2)
          habs
      refine ⟨db1, ?_, ?_, h3, h4, h5⟩
      · rw [List.cons_append, notify_loop_cons, if_neg (by simp [hex]),
          create_notification_ok db t m r.user_id (some eid) usr husr hev]
        exact h1
      · rw [List.filter_cons]
        simp only [hex, Bool.not_false, if_pos]
        dsimp only at h2
        rw [h2, List.length_append]
        simp only [List.length_cons, List.length_nil]
        omega

/-- The fan-out loop never changes the registrations table, whatever its
outcome. -/
theorem notify_loop_registrations (eid : Nat) (t m : String) (ex : Option Nat) :
    ∀ (rs : List Registration) (db : DB) (acc : List Notification),
    ((notify_loop db rs eid t m ex acc).2).registrations = db.registrations := by
  intro rs
  induction rs with
  | nil => intro db acc; rfl
  | cons r rest ih =>
    intro db acc
    cases hex : isExcluded ex r.user_id with
    | true =>
      rw [notify_loop_cons, if_pos hex]
      exact ih db acc
    | false =>
      rw [notify_loop_cons, if_neg (by simp [hex])]
      rcases hcn : create_notification db t m r.user_id (some eid) with ⟨res, db1⟩
      have htab := create_notification_tables db t m r.user_id (some eid)
      rw [hcn] at htab
      cases res with
      | error err => exact htab.2.2.1
      | ok n => exact (ih db1 (acc ++ [n])).trans htab.2.2.1

/-- `notify_event_participants` never changes the registrations table. -/
theorem notify_event_participants_registrations (db : DB) (eid : Nat)
    (t m : String) (ex : Option Nat) :
    ((notify_event_participants db eid t m ex).2).registrations =
      db.registrations :=
  notify_loop_registrations eid t m ex _ db []

/-- Projection form of `create_notification_tables` for a known outcome. -/
theorem create_notification_snd_registrations (db : DB) (t m : String)
    (uid : Nat) (eo : Option Nat) (res : Except AppError Notification)
    (db2 : DB) (h : create_notification db t m uid eo = (res, db2)) :
    db2.registrations = db.registrations := by
  have htab := (create_notification_tables db t m uid eo).2.2.1
  rw [h] at htab
  exact htab

/-- `register_event` changes the registrations table exactly as its inner
`register_for_event` call does (the later steps never touch it). -/
theorem register_event_registrations (db : DB) (u : Nat) (uname : String)
    (e : Nat) (tuuid : String) (aok : Bool) :
    ((register_event db u uname e tuuid aok).2).registrations =
      ((register_for_event db u e).2).registrations := by
  unfold register_event
  split
  next err db1 heq => rw [heq]
  next reg db1 heq =>
    rw [heq]
    split
    next err hev => rfl
    next ev hev =>
      split
      · dsimp only
        split
        next err db3 hc1 =>
          exact (create_notification_snd_registrations _ _ _ _ _ _ _ hc1).trans rfl
        next n1 db3 hc1 =>
          split
          next err db4 hc2 =>
            exact (create_notification_snd_registrations _ _ _ _ _ _ _ hc2).trans
              ((create_notification_snd_registrations _ _ _ _ _ _ _ hc1).trans rfl)
          next n2 db4 hc2 =>
            exact (create_notification_snd_registrations _ _ _ _ _ _ _ hc2).trans
              ((create_notification_snd_registrations _ _ _ _ _ _ _ hc1).trans rfl)
      · rfl

/-- Either `register_for_event` leaves the store unchanged (an error path) or
it appends exactly the fresh registration (and no prior row for the pair
existed). -/
theorem register_for_event_cases (db : DB) (u e : Nat) :
    (register_for_event db u e).2 = db ∨
    ((register_for_event db u e).2 =
      { db with
          registrations := db.registrations ++ [⟨db.next_registration_id, u, e⟩],
          next_registration_id := db.next_registration_id + 1 } ∧
     db.registrations.find?
       (fun r => r.user_id == u && r.event_id == e) = none) := by
  unfold register_for_event get_user_by_id get_event_by_id
  cases db.users.find? (fun x => x.id == u) with
  | none => exact .inl rfl
  | some usr =>
    cases db.events.find? (fun v => v.id == e) with
    | none => exact .inl rfl
    | some ev =>
      cases hr : db.registrations.find?
          (fun r => r.user_id == u && r.event_id == e) with
      | some reg => exact .inl rfl
      | none => exact .inr ⟨rfl, rfl⟩

/-- Either `cancel_registration` leaves the store unchanged (an error path)
or it erases exactly the found row for the pair. -/
theorem cancel_registration_cases (db : DB) (u e : Nat) :
    (cancel_registration db u e).2 = db ∨
    ∃ reg,
      db.registrations.find?
        (fun r => r.user_id == u && r.event_id == e) = some reg ∧
      (cancel_registration db u e).2 =
        { db with
            registrations := db.registrations.eraseP (fun r => r.id == reg.id) } := by
  unfold cancel_registration get_event_by_id
  cases db.events.find? (fun v => v.id == e) with
  | none => exact .inl rfl
  | some ev =>
    cases hr : db.registrations.find?
        (fun r => r.user_id == u && r.event_id == e) with
    | none => exact .inl rfl
    | some reg => exact .inr ⟨reg, rfl, rfl⟩

/-- Success shape of `register_for_event`. -/
theorem register_for_event_ok (db : DB) (u e : Nat) (usr : User) (ev : Event)
    (hu : db.users.find? (fun x => x.id == u) = some usr)
    (he : db.events.find? (fun v => v.id == e) = some ev)
    (hr : db.registrations.find?
      (fun r => r.user_id == u && r.event_id == e) = none) :
    register_for_event db u e =
      (.ok ⟨db.next_registration_id, u, e⟩,
       { db with
           registrations := db.registrations ++ [⟨db.next_registration_id, u, e⟩],
           next_registration_id := db.next_registration_id + 1 }) := by
  unfold register_for_event get_user_by_id get_event_by_id
  simp [hu, he, hr]

/-- Duplicate shape of `register_for_event`: a live row for the pair yields
`AlreadyRegisteredError` and no change. -/
theorem register_for_event_dup (db : DB) (u e : Nat) (usr : User) (ev : Event)
    (reg : Registration)
    (hu : db.users.find? (fun x => x.id == u) = some usr)
    (he : db.events.find? (fun v => v.id == e) = some ev)
    (hr : db.registrations.find?
      (fun r => r.user_id == u && r.event_id == e) = some reg) :
    register_for_event db u e = (.error (.alreadyRegistered e), db) := by
  unfold register_for_event get_user_by_id get_event_by_id
  simp [hu, he, hr]

/-- Inversion of a successful `register_for_event`. -/
theorem register_for_event_inv (db : DB) (u e : Nat) (reg : Registration)
    (db1 : DB) (h : register_for_event db u e = (.ok reg, db1)) :
    (∃ usr, db.users.find? (fun x => x.id == u) = some usr) ∧
    (∃ ev, db.events.find? (fun v => v.id == e) = some ev) ∧
    db.registrations.find?
      (fun r => r.user_id == u && r.event_id == e) = none ∧
    reg = ⟨db.next_registration_id, u, e⟩ ∧
    db1 = { db with
              registrations := db.registrations ++ [⟨db.next_registration_id, u, e⟩],
              next_registration_id := db.next_registration_id + 1 } := by
  unfold register_for_event get_user_by_id get_event_by_id at h
  cases hu : db.users.find? (fun x => x.id == u) with
  | none => rw [hu] at h; simp at h
  | some usr =>
    rw [hu] at h
    cases he : db.events.find? (fun v => v.id == e) with
    | none => rw [he] at h; simp at h
    | some ev =>
      rw [he] at h
      cases hr : db.registrations.find?
          (fun r => r.user_id == u && r.event_id == e) with
      | some reg0 => rw [hr] at h; simp at h
      | none =>
        rw [hr] at h
        simp only [Prod.mk.injEq] at h
        obtain ⟨h1, h2⟩ := h
        injection h1 with h1
        exact ⟨⟨usr, rfl⟩, ⟨ev, rfl⟩, rfl, h1.symm, h2.symm⟩

/-- Inversion of a successful `cancel_registration`. -/
theorem cancel_registration_inv (db : DB) (u e : Nat) (reg : Registration)
    (db2 : DB) (h : cancel_registration db u e = (.ok reg, db2)) :
    (∃ ev, db.events.find? (fun v => v.id == e) = some ev) ∧
    db.registrations.find?
      (fun r => r.user_id == u && r.event_id == e) = some reg ∧
    db2 = { db with
              registrations := db.registrations.eraseP (fun r => r.id == reg.id) } := by
  unfold cancel_registration get_event_by_id at h
  cases hev : db.events.find? (fun v => v.id == e) with
  | none => rw [hev] at h; simp at h
  | some ev =>
    rw [hev] at h
    cases hr : db.registrations.find?
        (fun r => r.user_id == u && r.event_id == e) with
    | none => rw [hr] at h; simp at h
    | some reg0 =>
      rw [hr] at h
      simp only [Prod.mk.injEq] at h
      obtain ⟨h1, h2⟩ := h
      injection h1 with h1
      subst h1
      exact ⟨⟨ev, rfl⟩, rfl, h2.symm⟩

/-- After erasing (by primary key) the row that `find?` located for a pair,
no row for that pair remains — given the pair-uniqueness invariant and unique
primary keys. -/
theorem find?_eraseP_pair (u e : Nat) :
    ∀ (l : List Registration),
    l.Pairwise (fun a b => ¬ (a.user_id = b.user_id ∧ a.event_id = b.event_id)) →
    (l.map (fun r => r.id)).Nodup →
    ∀ reg, l.find? (fun r => r.user_id == u && r.event_id == e) = some reg →
    (l.eraseP (fun r => r.id == reg.id)).find?
      (fun r => r.user_id == u && r.event_id == e) = none := by
  intro l
  induction l with
  | nil => intro _ _ reg h; cases h
  | cons a t ih =>
    intro hpw hnd reg hfind
    rw [List.pairwise_cons] at hpw
    rw [List.map_cons, List.nodup_cons] at hnd
    cases hp : (a.user_id == u && a.event_id == e) with
    | true =>
      rw [List.find?_cons_of_pos (p := fun r : Registration => r.user_id == u && r.event_id == e) _ hp] at hfind
      injection hfind with hfind
      subst hfind
      rw [List.eraseP_cons_of_pos (p := fun r : Registration => r.id == a.id) (by simp)]
      rw [List.find?_eq_none]
      intro x hx
      have hne := hpw.1 x hx
      simp only [Bool.and_eq_true, beq_iff_eq] at hp
      intro hxp
      simp only [Bool.and_eq_true, beq_iff_eq] at hxp
      exact hne ⟨by rw [hp.1, hxp.1], by rw [hp.2, hxp.2]⟩
    | false =>
      rw [List.find?_cons_of_neg (p := fun r : Registration => r.user_id == u && r.event_id == e) _ (by simp [hp])] at hfind
      have hmem := List.mem_of_find?_eq_some hfind
      have hne : a.id ≠ reg.id := by
        intro hcontra
        apply hnd.1
        rw [hcontra]
        exact List.mem_map_of_mem _ hmem
      rw [List.eraseP_cons_of_neg (p := fun r : Registration => r.id == reg.id) (by simp [hne])]
      rw [List.find?_cons_of_neg (p := fun r : Registration => r.user_id == u && r.event_id == e) _ (by simp [hp])]
      exact ih hpw.2 hnd.2 reg hfind

/-- When no row matches, `markFirst` reports `none` and leaves the list
untouched. -/
theorem markFirst_none (nid uid : Nat) :
    ∀ ns : List Notification,
    ns.find? (fun n => n.id == nid && n.user_id == uid) = none →
    markFirst ns nid uid = (none, ns) := by
  intro ns
  induction ns with
  | nil => intro _; rfl
  | cons n rest ih =>
    intro h
    cases hp : (n.id == nid && n.user_id == uid) with
    | true => rw [List.find?_cons_of_pos (p := fun n : Notification => n.id == nid && n.user_id == uid) _ hp] at h; cases h
    | false =>
      rw [List.find?_cons_of_neg (p := fun n : Notification => n.id == nid && n.user_id == uid) _ (by simp [hp])] at h
      unfold markFirst
      rw [if_neg (by simp [hp]), ih h]

/-- Whatever `markFirst` returns as updated row has the requested id, belongs
to the requested user, and is marked read. -/
theorem markFirst_some_inv (nid uid : Nat) :
    ∀ (ns : List Notification) (n' : Notification),
    (markFirst ns nid uid).1 = some n' →
    n'.id = nid ∧ n'.user_id = uid ∧ n'.is_read = true := by
  intro ns
  induction ns with
  | nil => intro n' h; cases h
  | cons n rest ih =>
    intro n' h
    unfold markFirst at h
    cases hp : (n.id == nid && n.user_id == uid) with
    | true =>
      rw [if_pos hp] at h
      have h2 : some ({ n with is_read := true } : Notification) = some n' := h
      injection h2 with h2
      subst h2
      simp only [Bool.and_eq_true, beq_iff_eq] at hp
      exact ⟨hp.1, hp.2, rfl⟩
    | false =>
      rw [if_neg (by simp [hp])] at h
      rcases hm : markFirst rest nid uid with ⟨r, rest2⟩
      rw [hm] at h
      apply ih n'
      rw [hm]
      exact h

/-! ## Claim theorems -/

/-- Claim C1, counterexample: with one user and one event and an
artifact-write failure, the request errors but the store keeps both the new
Registration row and the new Ticket row — they are not rolled back, refuting
"the store ends with neither a new Registration row nor a new Ticket row". -/
theorem C1_counterexample :
    (register_event dbBase 1 "Alice" 10 "uuid-1" false).1 =
      .error .artifactWriteError ∧
    ((register_event dbBase 1 "Alice" 10 "uuid-1" false).2).registrations =
      [⟨1, 1, 10⟩] ∧
    ((register_event dbBase 1 "Alice" 10 "uuid-1" false).2).tickets =
      [⟨1, "uuid-1", 1⟩] :=
  ⟨rfl, rfl, rfl⟩

/-- Claim C1 (amended): on an artifact-write error after the Registration and
Ticket rows were created, no rollback occurs — `register_event` surfaces the
uncaught artifact exception and the store retains both the new Registration
row and the new Ticket row (orphaned rows persist); no notifications are
created. -/
theorem C1_theorem (db : DB) (u e : Nat) (uname tuuid : String)
    (usr : User) (ev : Event)
    (hu : db.users.find? (fun x => x.id == u) = some usr)
    (he : db.events.find? (fun v => v.id == e) = some ev)
    (hr : db.registrations.find?
        (fun r => r.user_id == u && r.event_id == e) = none) :
    register_event db u uname e tuuid false =
      (.error .artifactWriteError,
       { db with
           registrations := db.registrations ++ [⟨db.next_registration_id, u, e⟩],
           next_registration_id := db.next_registration_id + 1,
           tickets :=
             db.tickets ++ [⟨db.next_ticket_id, tuuid, db.next_registration_id⟩],
           next_ticket_id := db.next_ticket_id + 1 }) := by
  unfold register_event register_for_event get_user_by_id get_event_by_id
  simp [hu, he, hr]

/-- Witness for C1: the amended statement instantiated at `dbBase`. -/
theorem C1_witness :
    dbBase.users.find? (fun x => x.id == 1) =
      some ⟨1, "Alice", "alice at example", "h", "organizer"⟩ ∧
    dbBase.events.find? (fun v => v.id == 10) =
      some ⟨10, "LeanConf", some "a conference", 1000, 1⟩ ∧
    dbBase.registrations.find? (fun r => r.user_id == 1 && r.event_id == 10) =
      none ∧
    register_event dbBase 1 "Alice" 10 "uuid-1" false =
      (.error .artifactWriteError,
       { dbBase with
           registrations := dbBase.registrations ++ [⟨1, 1, 10⟩],
           next_registration_id := 2,
           tickets := dbBase.tickets ++ [⟨1, "uuid-1", 1⟩],
           next_ticket_id := 2 }) :=
  ⟨rfl, rfl, rfl,
    C1_theorem dbBase 1 10 "Alice" "uuid-1"
      ⟨1, "Alice", "alice at example", "h", "organizer"⟩
      ⟨10, "LeanConf", some "a conference", 1000, 1⟩ rfl rfl rfl⟩

/-- Counting split: rows whose user differs from `k` plus rows whose user is
`k` exhaust the ledger. -/
theorem countP_ne_split (k : Nat) (l : List Registration) :
    l.countP (fun r => !(r.user_id == k)) + l.countP (fun r => r.user_id == k) =
      l.length := by
  induction l with
  | nil => rfl
  | cons a t ih =>
    cases h : a.user_id == k
    · rw [List.countP_cons_of_pos (p := fun r => !(r.user_id == k)) t (by simp [h]),
        List.countP_cons_of_neg (p := fun r => r.user_id == k) t (by simp [h]),
        List.length_cons]
      omega
    · rw [List.countP_cons_of_neg (p := fun r => !(r.user_id == k)) t (by simp [h]),
        List.countP_cons_of_pos (p := fun r => r.user_id == k) t (by simp [h]),
        List.length_cons]
      omega

/-- Claim C3: for all users u and events e (both present in the store), a
second `register_for_event` while a registration for (u, e) is live fails
with `AlreadyRegisteredError` (mapped to HTTP 409) and leaves the store
unchanged (no new row); and the at-most-one-live-registration-per-pair
invariant is preserved by every registration-touching operation
(`register_for_event`, `cancel_registration`, the `register_event` route and
the notification fan-out). -/
theorem C3_theorem (db : DB) (u e : Nat) :
    (∀ usr ev reg,
      db.users.find? (fun x => x.id == u) = some usr →
      db.events.find? (fun v => v.id == e) = some ev →
      db.registrations.find?
        (fun r => r.user_id == u && r.event_id == e) = some reg →
      register_for_event db u e = (.error (.alreadyRegistered e), db) ∧
      statusCode (.alreadyRegistered e) = 409) ∧
    (RegUnique db →
      RegUnique (register_for_event db u e).2 ∧
      RegUnique (cancel_registration db u e).2 ∧
      (∀ uname tuuid aok, RegUnique (register_event db u uname e tuuid aok).2) ∧
      (∀ t m ex, RegUnique (notify_event_participants db e t m ex).2)) := by
  have hpres : RegUnique db → RegUnique (register_for_event db u e).2 := by
    intro hru
    rcases register_for_event_cases db u e with h | ⟨h, hr⟩
    · rw [RegUnique, h]
      exact hru
    · rw [RegUnique, h]
      dsimp only
      rw [List.pairwise_append]
      refine ⟨hru, List.pairwise_singleton _ _, ?_⟩
      intro a ha b hb
      rw [List.mem_singleton] at hb
      subst hb
      rw [List.find?_eq_none] at hr
      have hra := hr a ha
      simp only [Bool.and_eq_true, beq_iff_eq, not_and] at hra
      dsimp only
      intro hcon
      exact hra hcon.1 hcon.2
  refine ⟨?_, fun hru => ⟨hpres hru, ?_, ?_, ?_⟩⟩
  · intro usr ev reg hu he hr
    exact ⟨register_for_event_dup db u e usr ev reg hu he hr, rfl⟩
  · rcases cancel_registration_cases db u e with h | ⟨reg, _, h⟩
    · rw [RegUnique, h]
      exact hru
    · rw [RegUnique, h]
      dsimp only
      exact List.Pairwise.sublist (List.eraseP_sublist _) hru
  · intro uname tuuid aok
    rw [RegUnique, register_event_registrations]
    exact hpres hru
  · intro t m ex
    rw [RegUnique, notify_event_participants_registrations]
    exact hru

/-- Witness for C3: at `dbRegistered` (user 1 live-registered for event 10) a
second register fails with 409 and no change, and uniqueness is preserved. -/
theorem C3_witness :
    dbRegistered.users.find? (fun x => x.id == 1) =
      some ⟨1, "Alice", "alice at example", "h", "organizer"⟩ ∧
    dbRegistered.events.find? (fun v => v.id == 10) =
      some ⟨10, "LeanConf", some "a conference", 1000, 1⟩ ∧
    dbRegistered.registrations.find?
      (fun r => r.user_id == 1 && r.event_id == 10) = some ⟨1, 1, 10⟩ ∧
    (register_for_event dbRegistered 1 10 =
      (.error (.alreadyRegistered 10), dbRegistered) ∧
     statusCode (.alreadyRegistered 10) = 409) ∧
    RegUnique dbRegistered ∧
    RegUnique (register_for_event dbRegistered 1 10).2 :=
  ⟨rfl, rfl, rfl,
   (C3_theorem dbRegistered 1 10).1 ⟨1, "Alice", "alice at example", "h", "organizer"⟩
     ⟨10, "LeanConf", some "a conference", 1000, 1⟩ ⟨1, 1, 10⟩ rfl rfl rfl,
   by unfold RegUnique; decide,
   ((C3_theorem dbRegistered 1 10).2 (by unfold RegUnique; decide)).1⟩

/-- Claim C4: when `register_for_event` succeeds for (u, e) on a store with
fresh autoincrement ids, the subsequent cancel succeeds (removing the row)
and a subsequent re-register for the same pair succeeds again — no residual
uniqueness violation. -/
theorem C4_theorem (db : DB) (u e : Nat) (reg : Registration) (db1 : DB)
    (hfresh : RegIdsFresh db)
    (hreg : register_for_event db u e = (.ok reg, db1)) :
    ∃ db2, cancel_registration db1 u e = (.ok reg, db2) ∧
      ∃ reg2 db3, register_for_event db2 u e = (.ok reg2, db3) := by
  obtain ⟨⟨usr, hu⟩, ⟨ev, he⟩, hr, hregeq, hdb1⟩ :=
    register_for_event_inv db u e reg db1 hreg
  subst hregeq
  subst hdb1
  have hfind : (db.registrations ++
      [(⟨db.next_registration_id, u, e⟩ : Registration)]).find?
      (fun r => r.user_id == u && r.event_id == e) =
      some ⟨db.next_registration_id, u, e⟩ := by
    rw [List.find?_append, hr]
    simp
  have herase : (db.registrations ++
      [(⟨db.next_registration_id, u, e⟩ : Registration)]).eraseP
      (fun r => r.id == db.next_registration_id) = db.registrations := by
    rw [List.eraseP_append_right]
    · simp
    · intro b hb
      have hlt := hfresh b hb
      simp only [beq_iff_eq]
      omega
  refine ⟨{ db with registrations := db.registrations,
                    next_registration_id := db.next_registration_id + 1 },
    ?_, ?_⟩
  · unfold cancel_registration get_event_by_id
    dsimp only
    simp only [he, hfind, herase]
  · exact ⟨_, _, register_for_event_ok _ u e usr ev hu he hr⟩

/-- Witness for C4: register, cancel, re-register at `dbBase`. -/
theorem C4_witness :
    RegIdsFresh dbBase ∧
    register_for_event dbBase 1 10 = (.ok ⟨1, 1, 10⟩, dbRegistered) ∧
    (∃ db2, cancel_registration dbRegistered 1 10 = (.ok ⟨1, 1, 10⟩, db2) ∧
      ∃ reg2 db3, register_for_event db2 1 10 = (.ok reg2, db3)) :=
  ⟨by unfold RegIdsFresh; decide, rfl,
   C4_theorem dbBase 1 10 ⟨1, 1, 10⟩ dbRegistered (by unfold RegIdsFresh; decide) rfl⟩

/-- Claim C2, counterexample: event 10 has two registrants, user 5 (whose user
row is absent, so creating their notification fails) and user 6 (present).
The fan-out surfaces the `UserNotFoundError` to the caller and user 6 receives
no notification — refuting "the remaining recipients still receive their
notifications and the failure is never surfaced to the caller". -/
theorem C2_counterexample :
    notify_event_participants dbDangling 10 "t" "m" none =
      (.error (.userNotFound "ID 5"), dbDangling) ∧
    dbDangling.notifications = [] ∧
    (∃ usr, dbDangling.users.find? (fun x => x.id == 6) = some usr) :=
  ⟨rfl, rfl, ⟨⟨6, "Frank", "f at example", "h", "attendee"⟩, rfl⟩⟩

/-- Claim C2 (amended): when creating the notification for one registrant
fails, the fan-out aborts at that registrant: the error propagates to the
caller of `notify_event_participants` (failing the enclosing request), the
non-excluded registrants before the failing one keep their already-committed
notifications, and the registrants after it receive none. -/
theorem C2_theorem (db : DB) (eid : Nat) (t m : String) (ex : Option Nat)
    (rs1 rs2 : List Registration) (rbad : Registration)
    (hsplit : db.registrations.filter (fun r => r.event_id == eid) =
      rs1 ++ rbad :: rs2)
    (hev : checkEventTruthy db (some eid) = .ok ())
    (hok : ∀ r ∈ rs1, isExcluded ex r.user_id = false →
      ∃ usr, db.users.find? (fun x => x.id == r.user_id) = some usr)
    (hnex : isExcluded ex rbad.user_id = false)
    (habs : db.users.find? (fun x => x.id == rbad.user_id) = none) :
    ∃ db1,
      notify_event_participants db eid t m ex =
        (.error (.userNotFound ("ID " ++ toString rbad.user_id)), db1) ∧
      db1.notifications.length =
        db.notifications.length +
          (rs1.filter (fun r => !(isExcluded ex r.user_id))).length ∧
      db1.users = db.users ∧ db1.registrations = db.registrations := by
  obtain ⟨db1, h1, h2, h3, _, h5⟩ :=
    notify_loop_err eid t m ex rbad rs2 hnex rs1 db [] hev hok habs
  refine ⟨db1, ?_, h2, h3, h5⟩
  unfold notify_event_participants
  rw [hsplit]
  exact h1

/-- Witness for C2: the amended statement instantiated at `dbDangling`, where
the very first registrant of event 10 is the failing one. -/
theorem C2_witness :
    dbDangling.registrations.filter (fun r => r.event_id == 10) =
      [] ++ (⟨1, 5, 10⟩ : Registration) :: [⟨2, 6, 10⟩] ∧
    dbDangling.users.find? (fun x => x.id == 5) = none ∧
    (∃ db1,
      notify_event_participants dbDangling 10 "Event Updated" "msg" none =
        (.error (.userNotFound ("ID " ++ toString 5)), db1) ∧
      db1.notifications.length =
        dbDangling.notifications.length +
          (([] : List Registration).filter
            (fun r => !(isExcluded none r.user_id))).length ∧
      db1.users = dbDangling.users ∧
      db1.registrations = dbDangling.registrations) :=
  ⟨rfl, rfl,
    C2_theorem dbDangling 10 "Event Updated" "msg" none [] [⟨2, 6, 10⟩]
      ⟨1, 5, 10⟩ rfl rfl (by simp) rfl rfl⟩

/-- Claim C5, counterexample: event 10 has 2 registrants with user ids 0 and
1. Excluding the boundary registrant id 0 should per the claim create exactly
1 notification, but the Python truthiness guard `if exclude_user_id and ...`
treats 0 as "no exclusion", so 2 notifications are created. -/
theorem C5_counterexample :
    (dbZeroUser.registrations.filter (fun r => r.event_id == 10)).length = 2 ∧
    ((dbZeroUser.registrations.filter (fun r => r.event_id == 10)).map
      (fun r => r.user_id)).contains 0 = true ∧
    (notify_event_participants dbZeroUser 10 "t" "m" (some 0)).1 =
      .ok [⟨1, "t", "m", false, 0, some 10⟩, ⟨2, "t", "m", false, 1, some 10⟩] ∧
    ¬ ∃ ns, (notify_event_participants dbZeroUser 10 "t" "m" (some 0)).1 = .ok ns ∧
        ns.length = 1 := by
  refine ⟨rfl, rfl, rfl, ?_⟩
  rintro ⟨ns, hns, hlen⟩
  have h0 : (notify_event_participants dbZeroUser 10 "t" "m" (some 0)).1 =
      Except.ok [⟨1, "t", "m", false, 0, some 10⟩,
                 ⟨2, "t", "m", false, 1, some 10⟩] := rfl
  rw [h0] at hns
  injection hns with h
  rw [← h] at hlen
  simp at hlen

/-- Claim C5 (amended): with N registrants and `exclude_user_id` set to one of
their ids, the fan-out creates exactly N−1 notifications — provided the
excluded id is nonzero (truthy); an `exclude_user_id` of 0 is falsy and
excludes nobody (see the counterexample). -/
theorem C5_theorem (db : DB) (eid : Nat) (t m : String) (k : Nat)
    (regs : List Registration)
    (hregs : db.registrations.filter (fun r => r.event_id == eid) = regs)
    (hev : checkEventTruthy db (some eid) = .ok ())
    (hall : ∀ r ∈ regs, ∃ usr, db.users.find? (fun x => x.id == r.user_id) = some usr)
    (hnd : (regs.map (fun r => r.user_id)).Nodup)
    (hk : k ∈ regs.map (fun r => r.user_id))
    (hk0 : k ≠ 0) :
    ∃ ns db1,
      notify_event_participants db eid t m (some k) = (.ok ns, db1) ∧
      ns.length + 1 = regs.length ∧
      db1.notifications.length + 1 = db.notifications.length + regs.length := by
  obtain ⟨ns, db1, h1, h2, _, _, _, h6⟩ :=
    notify_loop_ok eid t m (some k) regs db [] hev (fun r hr _ => hall r hr)
  have hkb : (k == 0) = false := by simp [hk0]
  have hfilter :
      (regs.filter (fun r => !(isExcluded (some k) r.user_id))).length + 1 =
        regs.length := by
    have hpred : (fun r : Registration => !(isExcluded (some k) r.user_id)) =
        (fun r : Registration => !(r.user_id == k)) := by
      funext r
      simp [isExcluded, hkb]
    rw [hpred]
    have hcount : regs.countP (fun r => r.user_id == k) = 1 := by
      have hc : List.count k (regs.map (fun r => r.user_id)) = 1 :=
        List.count_eq_one_of_mem hnd hk
      rw [List.count_eq_countP, List.countP_map] at hc
      simpa using hc
    have hsum := countP_ne_split k regs
    rw [← List.countP_eq_length_filter]
    omega
  exact ⟨ns, db1, by
    unfold notify_event_participants
    rw [hregs]
    simpa using h1, by omega, by omega⟩

/-- Witness for C5: the amended statement instantiated at `dbZeroUser` with
the nonzero registrant id 1 excluded: 2 registrants, 1 notification. -/
theorem C5_witness :
    dbZeroUser.registrations.filter (fun r => r.event_id == 10) =
      [⟨1, 0, 10⟩, ⟨2, 1, 10⟩] ∧
    (1 : Nat) ≠ 0 ∧
    (∃ ns db1,
      notify_event_participants dbZeroUser 10 "t" "m" (some 1) = (.ok ns, db1) ∧
      ns.length + 1 = ([⟨1, 0, 10⟩, ⟨2, 1, 10⟩] : List Registration).length ∧
      db1.notifications.length + 1 =
        dbZeroUser.notifications.length +
          ([⟨1, 0, 10⟩, ⟨2, 1, 10⟩] : List Registration).length) :=
  ⟨rfl, by decide,
    C5_theorem dbZeroUser 10 "t" "m" 1 [⟨1, 0, 10⟩, ⟨2, 1, 10⟩] rfl rfl
      (by
        intro r hr
        simp only [List.mem_cons, List.not_mem_nil, or_false] at hr
        rcases hr with h | h
        · subst h
          exact ⟨⟨0, "Zed", "z at example", "h", "attendee"⟩, rfl⟩
        · subst h
          exact ⟨⟨1, "Alice", "alice at example", "h", "organizer"⟩, rfl⟩)
      (by decide) (by decide) (by decide)⟩

/-- Claim C6: for every user, `get_unread_notification_count` returns exactly
the number of that user's notifications whose read flag is false, and after
`mark_all_notifications_as_read` that count is 0. -/
theorem C6_theorem (db : DB) (u : Nat) :
    get_unread_notification_count db u =
      db.notifications.countP (fun n => n.user_id == u && n.is_read == false) ∧
    get_unread_notification_count (mark_all_notifications_as_read db u).2 u = 0 := by
  constructor
  · simp [get_unread_notification_count, List.countP_eq_length_filter]
  · show ((db.notifications.map (fun n =>
        if n.user_id == u && n.is_read == false then { n with is_read := true }
        else n)).filter (fun n => n.user_id == u && n.is_read == false)).length = 0
    rw [markAll_filter_nil u db.notifications]
    rfl

/-- Claim C7, counterexample: at a store where user 1 has two unread
notifications, `mark_all_notifications_as_read` affects 2 rows but returns the
boolean `True`, not the count 2 — refuting "returns a count (the number of
notifications affected)". -/
theorem C7_counterexample :
    (mark_all_notifications_as_read dbUnread 1).1 = true ∧
    get_unread_notification_count dbUnread 1 = 2 ∧
    Bool.toNat (mark_all_notifications_as_read dbUnread 1).1 ≠ 2 := by
  decide

/-- Claim C7 (amended): for every user, `mark_all_notifications_as_read`
returns the constant boolean `True` (a success flag, not a count), and the
HTTP route discards it, answering a fixed message. -/
theorem C7_theorem (db : DB) (u : Nat) :
    (mark_all_notifications_as_read db u).1 = true ∧
    (route_mark_all_notifications_as_read db u).1 =
      "All notifications marked as read" :=
  ⟨rfl, rfl⟩

/-- Claim C10: when the date argument does not parse as `%Y-%m-%d`, the
`ValueError` is swallowed and the date filter is silently ignored — the search
result equals the same search with no date argument. -/
theorem C10_theorem (db : DB) (search : Option String) (d : String)
    (skip limit : Nat) (h : parse_ymd d = none) :
    search_events db search (some d) skip limit =
      search_events db search none skip limit := by
  unfold search_events
  by_cases hd : d.isEmpty
  · simp [hd]
  · simp [hd, h]

/-- Witness for C10: a malformed date at a concrete store. -/
theorem C10_witness :
    parse_ymd "2024-13-99" = none ∧
    search_events dbBase (some "conf") (some "2024-13-99") 0 10 =
      search_events dbBase (some "conf") none 0 10 :=
  ⟨by decide, C10_theorem dbBase (some "conf") "2024-13-99" 0 10 (by decide)⟩

/-- Claim C8: for every user u and event e with no live registration for
(u, e), `cancel_registration` fails with a NotFound error (HTTP 404) and
leaves the store unchanged; consequently, after a successful cancel, an
immediately repeated cancel for the same pair fails with 404 (given the
pair-uniqueness invariant and unique primary keys). -/
theorem C8_theorem (db : DB) (u e : Nat) :
    ((db.registrations.find?
        (fun r => r.user_id == u && r.event_id == e) = none) →
      ∃ err, cancel_registration db u e = (.error err, db) ∧
        statusCode err = 404) ∧
    (∀ reg db2, RegUnique db →
      (db.registrations.map (fun r => r.id)).Nodup →
      cancel_registration db u e = (.ok reg, db2) →
      ∃ err, cancel_registration db2 u e = (.error err, db2) ∧
        statusCode err = 404) := by
  constructor
  · intro hr
    unfold cancel_registration get_event_by_id
    cases hev : db.events.find? (fun v => v.id == e) with
    | none => exact ⟨.eventNotFound (toString e), rfl, rfl⟩
    | some ev =>
      rw [hr]
      exact ⟨.eventNotFound ("Registration not found for event " ++ toString e),
        rfl, rfl⟩
  · intro reg db2 hru hnd hc
    obtain ⟨⟨ev, hev⟩, hfind, hdb2⟩ := cancel_registration_inv db u e reg db2 hc
    have hnone := find?_eraseP_pair u e db.registrations hru hnd reg hfind
    refine ⟨.eventNotFound ("Registration not found for event " ++ toString e),
      ?_, rfl⟩
    subst hdb2
    unfold cancel_registration get_event_by_id
    dsimp only
    simp only [hev, hnone]

/-- Witness for C8: at `dbBase` (no registration) cancel yields 404 with no
change; at `dbRegistered` a successful cancel followed by a second cancel
yields 404. -/
theorem C8_witness :
    dbBase.registrations.find?
      (fun r => r.user_id == 1 && r.event_id == 10) = none ∧
    (∃ err, cancel_registration dbBase 1 10 = (.error err, dbBase) ∧
      statusCode err = 404) ∧
    RegUnique dbRegistered ∧
    (dbRegistered.registrations.map (fun r => r.id)).Nodup ∧
    cancel_registration dbRegistered 1 10 =
      (.ok ⟨1, 1, 10⟩, { dbRegistered with registrations := [] }) ∧
    (∃ err, cancel_registration { dbRegistered with registrations := [] } 1 10 =
        (.error err, { dbRegistered with registrations := [] }) ∧
      statusCode err = 404) :=
  ⟨rfl, (C8_theorem dbBase 1 10).1 rfl,
   by unfold RegUnique; decide, by decide, rfl,
   (C8_theorem dbRegistered 1 10).2 ⟨1, 1, 10⟩
     { dbRegistered with registrations := [] }
     (by unfold RegUnique; decide) (by decide) rfl⟩

/-- Claim C9: `mark_notification_as_read` fails (None, surfaced by the route
as HTTP 404 NotFound) whenever no notification with the given id belongs to
the caller, and then no notification's read flag changes (store unchanged);
any returned notification has the requested id, belongs to the caller and has
its read flag set to true. -/
theorem C9_theorem (db : DB) (nid uid : Nat) :
    ((db.notifications.find?
        (fun n => n.id == nid && n.user_id == uid) = none) →
      mark_notification_as_read db nid uid = (none, db) ∧
      route_mark_notification_as_read db nid uid =
        (.error (.httpError 404 "Notification not found"), db) ∧
      statusCode (.httpError 404 "Notification not found") = 404) ∧
    (∀ n', (mark_notification_as_read db nid uid).1 = some n' →
      n'.id = nid ∧ n'.user_id = uid ∧ n'.is_read = true) := by
  constructor
  · intro h
    have hm := markFirst_none nid uid db.notifications h
    have h1 : mark_notification_as_read db nid uid = (none, db) := by
      unfold mark_notification_as_read
      rw [hm]
    refine ⟨h1, ?_, rfl⟩
    unfold route_mark_notification_as_read
    rw [h1]
  · intro n' h
    apply markFirst_some_inv nid uid db.notifications n'
    unfold mark_notification_as_read at h
    rcases hm : markFirst db.notifications nid uid with ⟨r, ns⟩
    rw [hm] at h
    exact h

/-- Witness for C9: at `dbUnread`, marking the nonexistent notification 5
yields 404 and no change, while marking notification 1 returns it read. -/
theorem C9_witness :
    dbUnread.notifications.find?
      (fun n => n.id == 5 && n.user_id == 1) = none ∧
    (mark_notification_as_read dbUnread 5 1 = (none, dbUnread) ∧
     route_mark_notification_as_read dbUnread 5 1 =
       (.error (.httpError 404 "Notification not found"), dbUnread) ∧
     statusCode (.httpError 404 "Notification not found") = 404) ∧
    (mark_notification_as_read dbUnread 1 1).1 =
      some ⟨1, "t1", "m1", true, 1, none⟩ ∧
    ((⟨1, "t1", "m1", true, 1, none⟩ : Notification).id = 1 ∧
     (⟨1, "t1", "m1", true, 1, none⟩ : Notification).user_id = 1 ∧
     (⟨1, "t1", "m1", true, 1, none⟩ : Notification).is_read = true) :=
  ⟨rfl, (C9_theorem dbUnread 5 1).1 rfl, rfl,
   (C9_theorem dbUnread 1 1).2 ⟨1, "t1", "m1", true, 1, none⟩ rfl⟩

end EventEase
